import Mathlib

/-!
Verification development for the Todo-AI natural-language todo manager
(`app/main.py`, `app/llm_processor.py`, `app/models.py`).

The Python code is shallowly embedded:
  * SQLAlchemy rows become plain records; the todo table is a `List Task`
    in insertion (primary-key) order, which is the order in which
    `Query.first()` / `Query.all()` iterate rows.
  * JSON dictionaries produced by the completion oracle are records whose
    fields are `Option (Option _)`: the outer `Option` models key
    presence (`dict.get` / `KeyError`), the inner one models JSON `null`.
  * `datetime` values are modelled as natural-number timestamps in
    seconds; `strftime`/`strptime`/`fromisoformat` round-trips are the
    identity on this model.  Audit columns (`created_at`, `updated_at`)
    are omitted, as no claim concerns them.
  * Python exceptions that escape a handler surface as an explicit
    `pyExn` outcome (FastAPI would render them as HTTP 500).
  * The oracle call itself is an external effect, so its outcome
    (transport failure / non-JSON body / parsed JSON) is an explicit
    input to the analyzer.
-/

/-! ### Character/string helpers mirroring the Python string operations -/

/-- Python `\w` on ASCII input: letters, digits, underscore. -/
def isWordChar (c : Char) : Bool := c.isAlphanum || c == '_'

/-- ASCII decimal digit (Python `\d` on ASCII input). -/
def isAsciiDigit (c : Char) : Bool := '0' ≤ c && c ≤ '9'

/-- `pat` occurs at the head of `s`. -/
def listStartsWith : List Char → List Char → Bool
  | [], _ => true
  | _ :: _, [] => false
  | a :: as, b :: bs => a == b && listStartsWith as bs

/-- `pat` occurs somewhere inside `s` (Python `pat in s`). -/
def listHasSub (s pat : List Char) : Bool :=
  match s with
  | [] => pat.isEmpty
  | _ :: rest => listStartsWith pat s || listHasSub rest pat

/-- Python `str.lower()` (ASCII). -/
def pyLower (s : List Char) : List Char := s.map Char.toLower

/-- Python `str.capitalize()`: first character upper-cased, the rest lower-cased. -/
def pyCapitalize : List Char → List Char
  | [] => []
  | c :: rest => c.toUpper :: rest.map Char.toLower

/-- Python `str.strip()`: drop whitespace from both ends. -/
def pyStrip (s : List Char) : List Char :=
  ((s.dropWhile (fun c => c.isWhitespace)).reverse.dropWhile (fun c => c.isWhitespace)).reverse

/-- Python `str.replace(pat, rep)` with fuel (each step consumes at least one
character, so `s.length` fuel suffices). -/
def pyReplaceAux (pat rep : List Char) : Nat → List Char → List Char
  | 0, s => s
  | _ + 1, [] => []
  | fuel + 1, c :: rest =>
    if pat ≠ [] && listStartsWith pat (c :: rest) then
      rep ++ pyReplaceAux pat rep fuel ((c :: rest).drop pat.length)
    else c :: pyReplaceAux pat rep fuel rest

/-- Python `str.replace(pat, rep)`: replace every non-overlapping occurrence,
left to right. -/
def pyReplace (pat rep s : List Char) : List Char := pyReplaceAux pat rep s.length s

/-- One pass of `re.sub(r'\bWORD\b', '', s)`: remove each occurrence of `w`
bounded by non-word characters (or the string ends).  `prev` is the character
just before the current position in the original string. -/
def stripWordAux (w : List Char) : Nat → Option Char → List Char → List Char
  | 0, _, s => s
  | _ + 1, _, [] => []
  | fuel + 1, prev, c :: rest =>
    if listStartsWith w (c :: rest)
        && (match prev with | none => true | some p => !isWordChar p)
        && (match ((c :: rest).drop w.length).head? with
            | none => true
            | some n => !isWordChar n) then
      stripWordAux w fuel w.getLast? ((c :: rest).drop w.length)
    else c :: stripWordAux w fuel (some c) rest

/-- `re.sub(r'\b' + w + r'\b', '', s)` for a word `w` made of word characters. -/
def stripWordB (w : String) (s : List Char) : List Char :=
  if w.data = [] then s else stripWordAux w.data s.length none s

/-- `re.sub(r'\s+', ' ', s)`: collapse whitespace runs to a single space. -/
def collapseWsAux : Nat → List Char → List Char
  | 0, s => s
  | _ + 1, [] => []
  | fuel + 1, c :: rest =>
    if c.isWhitespace then
      ' ' :: collapseWsAux fuel (rest.dropWhile (fun ch => ch.isWhitespace))
    else c :: collapseWsAux fuel rest

/-- `re.sub(r'\s+', ' ', s)`. -/
def collapseWs (s : List Char) : List Char := collapseWsAux s.length s

/-- `re.sub(r'^\W+|\W+$', '', s)`: drop non-word characters from both ends. -/
def stripNonWord (s : List Char) : List Char :=
  ((s.dropWhile (fun c => !isWordChar c)).reverse.dropWhile (fun c => !isWordChar c)).reverse

/-- Python `str.split()` (no separator): split on whitespace runs, no empties. -/
def splitWsAux : Nat → List Char → List (List Char)
  | 0, _ => []
  | _ + 1, [] => []
  | fuel + 1, s =>
    let s1 := s.dropWhile (fun c => c.isWhitespace)
    match s1 with
    | [] => []
    | _ => s1.takeWhile (fun c => !c.isWhitespace)
        :: splitWsAux fuel (s1.dropWhile (fun c => !c.isWhitespace))

/-- Python `str.split()` with no separator argument. -/
def splitWs (s : List Char) : List (List Char) := splitWsAux s.length s

/-- Python `str.split(",")`: split on every comma, keeping empty pieces. -/
def splitOnComma : List Char → List (List Char)
  | [] => [[]]
  | c :: rest =>
    if c == ',' then [] :: splitOnComma rest
    else
      match splitOnComma rest with
      | [] => [[c]]
      | w :: ws => (c :: w) :: ws

/-- `" ".join(words)`. -/
def joinSpace : List (List Char) → List Char
  | [] => []
  | [w] => w
  | w :: ws => w ++ ' ' :: joinSpace ws

/-- `" ".join(word.capitalize() for word in s.split())` — the title
normalization at `llm_processor.py:224`. -/
def normTitle (s : List Char) : List Char := joinSpace ((splitWs s).map pyCapitalize)

/-- Digits of a decimal literal to a number (`int(...)` on a digit string). -/
def digitsToNat (ds : List Char) : Nat := ds.foldl (fun n c => n * 10 + (c.toNat - '0'.toNat)) 0

/-- Does the duration regex `(\d+)\s*(hr|hour|hrs|hours)` match at the head of
`s`?  All four unit alternatives begin with `hr` or `hour`, so after the
greedy digit and whitespace runs it suffices that one of those two strings
follows. -/
def durMatchAt (s : List Char) : Option Nat :=
  let ds := s.takeWhile isAsciiDigit
  if ds.isEmpty then none
  else
    let rest := (s.dropWhile isAsciiDigit).dropWhile (fun c => c.isWhitespace)
    if listStartsWith "hr".data rest || listStartsWith "hour".data rest then
      some (digitsToNat ds)
    else none

/-- `re.search(r'(\d+)\s*(hr|hour|hrs|hours)', s)`, returning `int(group(1))`
of the leftmost match (`llm_processor.py:240-243`). -/
def extractHours : List Char → Option Nat
  | [] => none
  | c :: rest =>
    match durMatchAt (c :: rest) with
    | some n => some n
    | none => extractHours rest

/-! ### Data model (`app/models.py`) -/

/-- A row of the `todos` table (`models.Todo`).  `category` holds the resolved
category display name (`todo.category.name`); inserts never set it, so it is
`none` unless patched.  Timestamps are seconds. -/
structure Todo where
  id : Nat
  title : String
  description : Option String
  dueDate : Option Nat
  completed : Bool
  priority : Option Nat
  category : Option String
  userId : Nat
deriving DecidableEq, Repr

/-- The parts of `models.User` the engine reads. -/
structure User where
  id : Nat
  isAdmin : Bool
deriving DecidableEq, Repr

/-- One entry of the `todos` list returned to the caller
(`main.py:298-309`). -/
structure TaskView where
  id : Nat
  title : String
  description : Option String
  completed : Bool
  priority : Option Nat
  dueDate : Option Nat
  category : Option String
deriving DecidableEq, Repr

/-- Render a stored task for the caller (`main.py:299-307`). -/
def taskView (t : Todo) : TaskView :=
  ⟨t.id, t.title, t.description, t.completed, t.priority, t.dueDate, t.category⟩

/-! ### JSON analysis dictionaries (`llm_processor.py` output schema) -/

/-- One element of the JSON `todos` array (or the `todo_info` object).  Each
field is `Option (Option _)`: outer `none` = key absent, `some none` = JSON
`null`, `some (some v)` = value. -/
structure DraftJson where
  title : Option (Option String)
  description : Option (Option String)
  dueDate : Option (Option Nat)
  priority : Option (Option Nat)
  category : Option (Option String)
deriving DecidableEq, Repr

/-- The JSON `filters` object of the oracle schema.  `get_filtered_todos`
never reads it (see `claim_c3`), but it is carried faithfully. -/
structure Filters where
  completed : Option Bool := none
  category : Option String := none
  priority : Option Nat := none
  dueBefore : Option Nat := none
  dueAfter : Option Nat := none
deriving DecidableEq, Repr

/-- The JSON `view_options` object of the oracle schema; likewise never read
by `get_filtered_todos`. -/
structure ViewOptions where
  sortBy : Option String := none
  sortOrder : Option String := none
  showCompleted : Option Bool := none
deriving DecidableEq, Repr

/-- The analysis dictionary exchanged between `TodoAnalyzer.analyze_input`
and `process_input`: the keys either side ever touches.  Outer `none` on
`action` = key absent. -/
structure AnalysisDict where
  action : Option (Option String) := none
  todos : Option (List DraftJson) := none
  todoInfo : Option DraftJson := none
  filters : Option Filters := none
  viewOptions : Option ViewOptions := none
  errMsg : Option String := none
  details : Option String := none
  uiAction : Option String := none
deriving DecidableEq, Repr

/-- Outcome of the `openai.ChatCompletion.create` call plus `json.loads`:
the call raises (network/timeout/HTTP error), or returns a body that is not
valid JSON, or returns JSON parsed into the schema fields the code reads. -/
inductive OracleOutcome where
  | failure (msg : String)
  | invalidJson (msg : String)
  | parsedJson (p : AnalysisDict)
deriving DecidableEq, Repr

/-- What `process_input` produces: a `{"todos": ..., "message"?, "error"?}`
payload, an `HTTPException`, or an uncaught Python exception (HTTP 500). -/
inductive ProcOutcome where
  | listResult (todos : List TaskView) (message : Option String) (error : Option String)
  | httpExn (code : Nat) (detail : String)
  | pyExn (msg : String)
deriving DecidableEq, Repr

/-! ### Task matcher (`main.py:66-86`, `find_matching_todo`) -/

/-- Stage 1 of the matcher: `Todo.title.ilike(f"%{ref}%")`, i.e. the stored
title contains the reference case-insensitively. -/
def titleMatch (t : Todo) (ref : String) : Bool :=
  listHasSub (pyLower t.title.data) (pyLower ref.data)

/-- Stage 2 of the matcher: some lowercase word of the reference occurs in
the lowercased stored title (`main.py:81-84`). -/
def tokenMatch (t : Todo) (ref : String) : Bool :=
  (splitWs (pyLower ref.data)).any (fun w => listHasSub (pyLower t.title.data) w)

/-- Either stage of the matcher accepts the task. -/
def anyMatch (t : Todo) (ref : String) : Bool := titleMatch t ref || tokenMatch t ref

/-- `find_matching_todo(db, title, user_id)` (`main.py:66-86`): first task of
the owner whose title contains the reference case-insensitively; failing
that, first task of the owner whose lowercased title contains any lowercase
word of the reference; else `None`.  `find?` models `Query.first()` and the
early-returning `for` loop over `Query.all()`. -/
def findMatchingTodo (store : List Todo) (title : String) (uid : Nat) : Option Todo :=
  let todo := (store.filter (fun t => t.userId == uid)).find? (fun t => titleMatch t title)
  match todo with
  | some t => some t
  | none =>
    (store.filter (fun t => t.userId == uid)).find? (fun t => tokenMatch t title)

/-! ### Result rendering (`main.py:276-315`) -/

/-- `get_filtered_todos(db, filters, view_options, current_user)`
(`main.py:283-313`): with no user, an empty list and a login message;
otherwise every task (admin) or the user's tasks, rendered.  The function
returns at `main.py:297` before any filter or sort logic — `filters` and
`view_options` are accepted but never read (its trailing `# Apply filters`
comment is after the `return`). -/
def getFilteredTodos (store : List Todo) (filters : Filters) (viewOptions : ViewOptions)
    (user : Option User) : ProcOutcome :=
  match user with
  | none => .listResult [] (some "Please log in to view todos") none
  | some u =>
    let ts := if u.isAdmin then store else store.filter (fun t => t.userId == u.id)
    .listResult (ts.map taskView) none none

/-- `get_todos_response(db, message, current_user)` (`main.py:276-281`). -/
def getTodosResponse (store : List Todo) (message : Option String) (user : User) : ProcOutcome :=
  match getFilteredTodos store {} {} (some user), message with
  | .listResult vs _ e, some m => .listResult vs (some m) e
  | r, _ => r

/-! ### Mutation engine branches (`main.py:88-274`, `process_input`) -/

/-- Build a `models.Todo` row from one create dictionary (`main.py:140-150`):
only title, description, owner, priority and `completed=False` are passed to
the constructor, plus `due_date` when present and truthy; `category_id` is
never set.  A missing `"title"` key is a `KeyError`; a JSON-null title is not
modelled (the code would insert SQL NULL, which no claim exercises). -/
def mkTodoFromDict (uid nid : Nat) (info : DraftJson) : Except String Todo :=
  match info.title with
  | none => .error "KeyError: title"
  | some none => .error "null title (outside the model)"
  | some (some t) =>
    .ok { id := nid
          title := t
          description := info.description.join
          dueDate := info.dueDate.join
          completed := false
          priority := (match info.priority with | none => some 1 | some v => v)
          category := none
          userId := uid }

/-- The `for todo_info in todos_to_create: db.add(...)` loop
(`main.py:139-152`); ids are assigned consecutively by the store.  Any
exception aborts the whole batch (the commit is never reached and the
handler at `main.py:163` rolls back). -/
def buildAll (uid : Nat) : Nat → List DraftJson → Except String (List Todo)
  | _, [] => .ok []
  | nid, d :: ds => do
    let t ← mkTodoFromDict uid nid d
    let ts ← buildAll uid (nid + 1) ds
    .ok (t :: ts)

/-- Overwrite a message slot on a list payload (`todos["message"] = ...`). -/
def setMessage : ProcOutcome → String → ProcOutcome
  | .listResult vs _ e, m => .listResult vs (some m) e
  | o, _ => o

/-- `f"Created {count} {'todo' if count == 1 else 'todos'} successfully"`
(`main.py:158`). -/
def createdMsg (n : Nat) : String :=
  "Created " ++ toString n ++ (if n == 1 then " todo" else " todos") ++ " successfully"

/-- The `create` branch (`main.py:116-164`): take the analysis `todos` list,
else rebuild a single dictionary from `todo_info` (direct indexing of its
four keys, `main.py:124-129`, never copying `category`), else from the raw
utterance; insert a row per dictionary; on any exception roll back and
report a generic failure. -/
def createBranch (analysis : AnalysisDict) (userInput : String) (store : List Todo)
    (user : User) (nextId : Nat) : List Todo × ProcOutcome :=
  let todosToCreate : Except String (List DraftJson) :=
    let ts := analysis.todos.getD []
    if ts ≠ [] then .ok ts
    else
      match analysis.todoInfo with
      | some info =>
        match info.title, info.description, info.dueDate, info.priority with
        | some t, some d, some dd, some p => .ok [⟨some t, some d, some dd, some p, none⟩]
        | _, _, _, _ => .error "KeyError in todo_info"
      | none => .ok [⟨some (some userInput), some (some userInput), some none, some (some 1), none⟩]
  match todosToCreate with
  | .error _ => (store, .listResult [] none (some "Failed to create todo. Please try again."))
  | .ok ds =>
    match buildAll user.id nextId ds with
    | .error _ => (store, .listResult [] none (some "Failed to create todo. Please try again."))
    | .ok newTasks =>
      let store1 := store ++ newTasks
      (store1, setMessage (getFilteredTodos store1 {} {} (some user)) (createdMsg ds.length))

/-- Title reconstruction for completion when the analysis carries no drafts
and no `todo_info` (`main.py:176-180`): lowercase the utterance, delete the
fixed substrings in order, strip, capitalize. -/
def completionTitleFromInput (input : String) : String :=
  let ws := ["mark", "as", "complete", "completed", "incomplete", "done", "todo", "task"]
  let s := ws.foldl (fun acc word => pyReplace word.data [] acc) (pyLower input.data)
  String.mk (pyCapitalize (pyStrip s))

/-- Same reconstruction for deletion (`main.py:255-259`). -/
def deletionTitleFromInput (input : String) : String :=
  let ws := ["delete", "remove", "todo", "task"]
  let s := ws.foldl (fun acc word => pyReplace word.data [] acc) (pyLower input.data)
  String.mk (pyCapitalize (pyStrip s))

/-- Resolve the searched title for the completion/deletion branches
(`main.py:169-182` / `248-261`): first draft's `"title"` if drafts exist,
else `todo_info["title"]`, else reconstruct from the utterance.  A missing
key is a `KeyError`; a JSON-null title would flow into
`find_matching_todo(None, ...)` and crash there (`AttributeError`). -/
def resolveRefTitle (analysis : AnalysisDict) (fromInput : String) : Except String String :=
  match analysis.todos.getD [] with
  | [] =>
    match analysis.todoInfo with
    | some info =>
      match info.title with
      | some (some t) => .ok t
      | some none => .error "AttributeError: NoneType title"
      | none => .error "KeyError: title"
    | none => .ok fromInput
  | d :: _ =>
    match d.title with
    | some (some t) => .ok t
    | some none => .error "AttributeError: NoneType title"
    | none => .error "KeyError: title"

/-- The `mark_complete` / `mark_incomplete` branch (`main.py:166-193`). -/
def markBranch (toComplete : Bool) (analysis : AnalysisDict) (userInput : String)
    (store : List Todo) (user : User) : List Todo × ProcOutcome :=
  match resolveRefTitle analysis (completionTitleFromInput userInput) with
  | .error e => (store, .pyExn e)
  | .ok t =>
    match findMatchingTodo store t user.id with
    | none => (store, .httpExn 404 ("Todo not found: " ++ t))
    | some todo =>
      let store1 := store.map (fun u => if u.id == todo.id then { u with completed := toComplete } else u)
      (store1, getTodosResponse store1
        (some ("Todo marked as " ++ (if toComplete then "complete" else "incomplete"))) user)

/-- The field patch of the live `update` branch (`main.py:203-207`): every
non-null value of `todo_info` whose key is a `Todo` attribute overwrites the
row.  Assigning a string to the `category` relationship is rejected by the
ORM at flush time, which would escape as an exception. -/
def patchTodo (t : Todo) (info : DraftJson) : Except String Todo :=
  match info.category.join with
  | some _ => .error "category relationship assignment fails at flush"
  | none =>
    .ok { t with
          title := (info.title.join).getD t.title
          description := (match info.description.join with | some v => some v | none => t.description)
          dueDate := (match info.dueDate.join with | some v => some v | none => t.dueDate)
          priority := (match info.priority.join with | some v => some v | none => t.priority) }

/-- The live `update` branch (`main.py:195-210`): index `analysis["todo_info"]`
(a `KeyError` when absent), look the task up by exact title over ALL rows —
`main.py:198` has no `user_id` filter — and patch it. -/
def updateBranch (analysis : AnalysisDict) (store : List Todo) (user : User) :
    List Todo × ProcOutcome :=
  match analysis.todoInfo with
  | none => (store, .pyExn "KeyError: todo_info")
  | some info =>
    match info.title with
    | none => (store, .pyExn "KeyError: title")
    | some tv =>
      let found : Option Todo := match tv with
        | none => none
        | some t => store.find? (fun u => u.title == t)
      match found with
      | none => (store, .httpExn 404 "Todo not found")
      | some todo =>
        match patchTodo todo info with
        | .error e => (store, .pyExn e)
        | .ok todo1 =>
          let store1 := store.map (fun u => if u.id == todo.id then todo1 else u)
          (store1, getTodosResponse store1 (some "Todo updated successfully") user)

/-- The second `update` branch (`main.py:212-238`): rename with a same-owner
conflict check.  It is dead code — an identical `elif` guard at `main.py:195`
precedes it — but it is embedded verbatim because the specification
describes it. -/
def updateRenameBranch (analysis : AnalysisDict) (store : List Todo) (user : User) :
    List Todo × ProcOutcome :=
  let todos := analysis.todos.getD []
  if todos.length < 2 then (store, .httpExn 400 "Missing update information")
  else
    match todos with
    | t0 :: t1 :: _ =>
      match t0.title, t1.title with
      | some (some oldT), some (some newT) =>
        match findMatchingTodo store oldT user.id with
        | none => (store, .httpExn 404 ("Todo not found: " ++ oldT))
        | some todo =>
          match store.find? (fun u => u.title == newT && u.userId == user.id && !(u.id == todo.id)) with
          | some _ => (store, .httpExn 400 "A todo with this title already exists")
          | none =>
            let store1 := store.map (fun u => if u.id == todo.id then { u with title := newT } else u)
            (store1, getTodosResponse store1 (some "Todo updated successfully") user)
      | _, _ => (store, .pyExn "title access on rename drafts")
    | _ => (store, .pyExn "unreachable: length checked")

/-- The `delete` branch (`main.py:245-272`). -/
def deleteBranch (analysis : AnalysisDict) (userInput : String) (store : List Todo)
    (user : User) : List Todo × ProcOutcome :=
  match resolveRefTitle analysis (deletionTitleFromInput userInput) with
  | .error e => (store, .pyExn e)
  | .ok t =>
    match findMatchingTodo store t user.id with
    | none => (store, .httpExn 404 ("Todo not found: " ++ t))
    | some todo =>
      let store1 := store.filter (fun u => !(u.id == todo.id))
      (store1, getTodosResponse store1 (some "Todo deleted successfully") user)

/-- `process_input` (`main.py:88-274`) after the analysis has been obtained:
the error short-circuit and the missing-action default (`main.py:101-112`),
then the `elif` dispatch in source order.  The duplicated
`elif analysis["action"] == "update"` is kept in place; the second test can
never fire. -/
def processInput (analysis0 : AnalysisDict) (userInput : String) (store : List Todo)
    (user : User) (nextId : Nat) : List Todo × ProcOutcome :=
  if analysis0.action == some (some "error") then
    (store, .listResult [] none (some (analysis0.errMsg.getD "Unknown error occurred")))
  else
    let analysis := if analysis0.action == none then
        { analysis0 with
          action := some (some "create")
          todoInfo := some ⟨some (some userInput), some none, some none, some (some 1), some none⟩ }
      else analysis0
    match analysis.action with
    | some (some a) =>
      if a == "create" then createBranch analysis userInput store user nextId
      else if a == "mark_complete" || a == "mark_incomplete" then
        markBranch (a == "mark_complete") analysis userInput store user
      else if a == "update" then updateBranch analysis store user
      else if a == "update" then updateRenameBranch analysis store user
      else if a == "query" || a == "list_all" then
        (store, getFilteredTodos store (analysis.filters.getD {}) (analysis.viewOptions.getD {}) (some user))
      else if a == "delete" then deleteBranch analysis userInput store user
      else (store, .httpExn 400 "Invalid action")
    | _ => (store, .httpExn 400 "Invalid action")

/-! ### Intent extractor (`llm_processor.py`, `TodoAnalyzer.analyze_input`) -/

/-- Message of the outer exception handler (`llm_processor.py:310-314`). -/
def genericOracleFailureMsg : String :=
  "An error occurred while processing your request. Please try again."

/-- Message when the heuristic fallback strips the utterance to nothing
(`llm_processor.py:303-307`). -/
def fallbackFailureMsg : String :=
  "Failed to understand the request. Please try again."

/-- The `{"action": "error", "error": ..., "details": ...}` dictionary. -/
def errorAnalysis (msg details : String) : AnalysisDict :=
  { action := some (some "error"), errMsg := some msg, details := some details }

/-- `basic_cleanup` (`llm_processor.py:263-276`): lowercase, delete each
action/filler word at word boundaries, collapse whitespace and strip, then
drop non-word characters at the ends.  The word list is in source order —
order matters, since earlier deletions can break later matches. -/
def basicCleanup (text : List Char) : List Char :=
  let ws := ["add", "create", "delete", "remove", "update", "change",
             "complete", "finish", "done", "need to", "have to", "must",
             "should", "want to", "going to", "task", "todo"]
  let t := pyLower text
  let t := ws.foldl (fun acc w => stripWordB w acc) t
  let t := pyStrip (collapseWs t)
  stripNonWord t

/-- The fallback task title: `basic_cleanup(user_input.lower())` followed by
`.strip().capitalize()` (`llm_processor.py:279,289`). -/
def fallbackTitle (input : String) : String :=
  String.mk (pyCapitalize (pyStrip (basicCleanup (pyLower input.data))))

/-- The fallback action word (`llm_processor.py:280-286`): `"delete"` when
the lowered utterance contains delete/remove/cancel, else `"mark_complete"`
when it contains done/complete/finished, else `"create"`. -/
def fallbackAction (input : String) : String :=
  if ["delete", "remove", "cancel"].any (fun w => listHasSub (pyLower input.data) w.data) then
    "delete"
  else if ["done", "complete", "finished"].any (fun w => listHasSub (pyLower input.data) w.data) then
    "mark_complete"
  else "create"

/-- The heuristic fallback on `json.JSONDecodeError`
(`llm_processor.py:257-307`): when the cleaned title is non-empty, an
analysis with the classified action and a single draft; otherwise an error
dictionary. -/
def fallbackAnalysis (userInput : String) (details : String) : AnalysisDict :=
  let actionWord := fallbackAction userInput
  let taskName := fallbackTitle userInput
  if taskName == "" then errorAnalysis fallbackFailureMsg details
  else
    { action := some (some actionWord)
      uiAction := some (if actionWord == "create" then "add_item" else "update_item")
      todos := some [⟨some (some taskName), some none, some none, some (some 1), some none⟩] }

/-- Per-item post-processing of a `create` analysis
(`llm_processor.py:218-250`).  `d0` is always the FIRST element of the
parsed `todos` array (`parsed.get("todos", [{}])[0]` sits inside the loop
but never varies with the item); `item` is the raw comma-separated piece.
A JSON-null title reaches `title.split()` and raises. -/
def buildTodoItem (d0 : DraftJson) (now : Nat) (item : List Char) : Except String DraftJson :=
  let titleRaw : Option String := match d0.title with
    | none => some (String.mk (pyStrip item))
    | some v => v
  match titleRaw with
  | none => .error "AttributeError: NoneType title"
  | some t0 =>
    let title := String.mk (normTitle t0.data)
    let descr : Option String := match d0.description with | none => some title | some v => v
    let category := d0.category.join
    let priority : Option Nat := match d0.priority with | none => some 1 | some v => v
    match extractHours (pyLower item) with
    | some h =>
      .ok { title := some (some title)
            description := some (some (String.mk (pyCapitalize title.data)
              ++ " (Due in " ++ toString h ++ " hours)"))
            dueDate := some (some (now + h * 3600))
            priority := some priority
            category := some category }
    | none =>
      .ok { title := some (some title)
            description := some descr
            dueDate := some d0.dueDate.join
            priority := some priority
            category := some category }

/-- The `for item in todo_items` loop (`llm_processor.py:218-250`); an
exception anywhere aborts the whole analysis. -/
def mapBuild (d0 : DraftJson) (now : Nat) : List (List Char) → Except String (List DraftJson)
  | [] => .ok []
  | i :: is => do
    let d ← buildTodoItem d0 now i
    let ds ← mapBuild d0 now is
    .ok (d :: ds)

/-- `TodoAnalyzer.analyze_input` (`llm_processor.py:15-314`), with the
oracle call's outcome as an explicit input.  A transport failure lands in
the outer handler; a non-JSON body takes the heuristic fallback; parsed
JSON gets its `todos` key defaulted and, for `create`, the comma-split
post-processing whose exceptions (`IndexError` on an empty `todos` array,
`AttributeError` on a null title) also land in the outer handler. -/
def analyzeInput (oracle : OracleOutcome) (userInput : String) (now : Nat) : AnalysisDict :=
  match oracle with
  | .failure e => errorAnalysis genericOracleFailureMsg e
  | .invalidJson e => fallbackAnalysis userInput e
  | .parsedJson p0 =>
    let p := if p0.todos == none then { p0 with todos := some [] } else p0
    if p.action == some (some "create") then
      let todoItems : List (List Char) :=
        if userInput.data.any (fun c => c == ',') then
          (splitOnComma userInput.data).map pyStrip
        else [userInput.data]
      match (p.todos.getD []).head? with
      | none => errorAnalysis genericOracleFailureMsg "IndexError: list index out of range"
      | some d0 =>
        match mapBuild d0 now todoItems with
        | .error e => errorAnalysis genericOracleFailureMsg e
        | .ok ts =>
          { p with todos := some ts, uiAction := some (p.uiAction.getD "add_item") }
    else p

/-! ### Concrete states used by the claim theorems -/

/-- A task owned by user 2, later referenced by user 1's update. -/
def rentTask : Todo := ⟨1, "Pay Rent", some "original", none, false, some 1, none, 2⟩

/-- User 1, not an admin. -/
def plainUser1 : User := ⟨1, false⟩

/-- An update analysis whose `todo_info` names user 2's task and carries a
new description. -/
def crossOwnerUpdate : AnalysisDict :=
  { action := some (some "update")
    todoInfo := some ⟨some (some "Pay Rent"), some (some "hacked"), none, none, none⟩ }

/-- C1: for every mutation applied on behalf of owner U, only U's tasks are
inserted, modified or deleted; in particular an update referencing a title
held only by another owner must not mutate that task.

The code violates this: the live `update` branch looks the task up by exact
title with NO owner filter (`main.py:198`), so user 1's update analysis
naming "Pay Rent" — held only by user 2 — overwrites user 2's row.  This
theorem evaluates the embedded engine at that failing input: the store
afterwards holds user 2's task with the attacker-supplied description. -/
theorem claim_c1_cross_owner_update_bug :
    (processInput crossOwnerUpdate "" [rentTask] plainUser1 10).1 =
      [⟨1, "Pay Rent", some "hacked", none, false, some 1, none, 2⟩] ∧
    rentTask.userId = 2 ∧ plainUser1.id = 1 ∧
    (processInput crossOwnerUpdate "" [rentTask] plainUser1 10).1 ≠ [rentTask] := by
  decide

/-- Two tasks of owner 5, the setting of the rename-conflict scenario. -/
def alphaBetaStore : List Todo :=
  [⟨1, "Alpha", none, none, false, some 1, none, 5⟩,
   ⟨2, "Beta", none, none, false, some 1, none, 5⟩]

/-- Owner 5. -/
def plainUser5 : User := ⟨5, false⟩

/-- A rename analysis: two drafts, old title "Alpha", new title "Beta". -/
def renameConflictAnalysis : AnalysisDict :=
  { action := some (some "update")
    todos := some [⟨some (some "Alpha"), none, none, none, none⟩,
                   ⟨some (some "Beta"), none, none, none, none⟩] }

/-- A rename analysis carrying a single draft. -/
def renameOneDraftAnalysis : AnalysisDict :=
  { action := some (some "update")
    todos := some [⟨some (some "Alpha"), none, none, none, none⟩] }

/-- C2: renaming A to B's title should fail with a title-conflict error and
mutate neither task; an update with fewer than two drafts should fail with a
missing-information error.

The branch implementing exactly that (`main.py:212-238`) is dead code: an
identical `elif analysis["action"] == "update"` at `main.py:195` precedes
it, so every update analysis takes the field-patch branch, which indexes
`analysis["todo_info"]` and raises `KeyError` (HTTP 500) when only drafts
are present.  This theorem shows: on both failing inputs the live engine
raises `KeyError` (store untouched, no conflict and no missing-info error),
while the embedded dead branch would have produced exactly the claimed
errors. -/
theorem claim_c2_rename_conflict_dead_code :
    processInput renameConflictAnalysis "" alphaBetaStore plainUser5 10 =
      (alphaBetaStore, .pyExn "KeyError: todo_info") ∧
    updateRenameBranch renameConflictAnalysis alphaBetaStore plainUser5 =
      (alphaBetaStore, .httpExn 400 "A todo with this title already exists") ∧
    processInput renameOneDraftAnalysis "" alphaBetaStore plainUser5 10 =
      (alphaBetaStore, .pyExn "KeyError: todo_info") ∧
    updateRenameBranch renameOneDraftAnalysis alphaBetaStore plainUser5 =
      (alphaBetaStore, .httpExn 400 "Missing update information") := by
  decide

/-- One incomplete task of owner 4. -/
def wateringStore : List Todo := [⟨1, "Water Plants", none, none, false, some 1, none, 4⟩]

/-- Owner 4. -/
def plainUser4 : User := ⟨4, false⟩

/-- A query analysis filtering for completed tasks. -/
def completedQuery : AnalysisDict :=
  { action := some (some "query"), filters := some { completed := some true } }

/-- C3: a query/list_all fetches the owner's tasks (all tasks for an admin),
applies the analysis's filters, sorts per its view options, never fails
hard, and may be empty.

The filtering/sorting part is false: `get_filtered_todos` returns at
`main.py:297`, before any filter or sort logic, despite its own docstring
("Get filtered and sorted todos based on filters and view options").  First
conjunct: the result is entirely independent of `filters` and
`view_options`.  Second: at the failing input — a `completed=true` filter
over a store whose only task is incomplete — the incomplete task is still
returned.  (The owner/admin scoping and the never-fails/empty-is-valid
parts do hold and follow from the same evaluation.) -/
theorem claim_c3_filters_ignored_bug :
    (∀ (store : List Todo) (f1 f2 : Filters) (v1 v2 : ViewOptions) (u : Option User),
      getFilteredTodos store f1 v1 u = getFilteredTodos store f2 v2 u) ∧
    processInput completedQuery "" wateringStore plainUser4 0 =
      (wateringStore, .listResult [⟨1, "Water Plants", none, false, some 1, none, none⟩] none none) := by
  refine ⟨fun store f1 f2 v1 v2 u => ?_, by decide⟩
  cases u <;> rfl

/-- C4 as stated is false: a failing oracle call does NOT degrade to the
heuristic fallback.  At the concrete input "need to buy milk", a transport
failure yields an error analysis with no drafts, while the heuristic
fallback (taken only on non-JSON bodies) yields a create analysis with a
draft — two different results. -/
theorem claim_c4_counterexample :
    (analyzeInput (.failure "timeout") "need to buy milk" 0).action = some (some "error") ∧
    (analyzeInput (.failure "timeout") "need to buy milk" 0).todos = none ∧
    (analyzeInput (.invalidJson "timeout") "need to buy milk" 0).action = some (some "create") ∧
    analyzeInput (.failure "timeout") "need to buy milk" 0 ≠
      analyzeInput (.invalidJson "timeout") "need to buy milk" 0 := by
  decide

/-- C4 amended: whenever the oracle call itself fails, `analyze_input`
returns an error analysis whose user-visible message is a fixed generic
string — not the heuristic fallback, which is reserved for non-JSON bodies
(its analyses never carry that message).  The raw failure text is attached
only as a diagnostics field, and the engine then surfaces only the generic
message, leaving the store untouched. -/
theorem claim_c4_oracle_failure_generic_error (e input : String) (now : Nat) :
    (analyzeInput (.failure e) input now).action = some (some "error") ∧
    (analyzeInput (.failure e) input now).errMsg = some genericOracleFailureMsg ∧
    (analyzeInput (.failure e) input now).details = some e ∧
    (analyzeInput (.failure e) input now).todos = none ∧
    (analyzeInput (.invalidJson e) input now).errMsg ≠ some genericOracleFailureMsg ∧
    (∀ (i2 : String) (store : List Todo) (user : User) (nid : Nat),
      processInput (analyzeInput (.failure e) input now) i2 store user nid =
        (store, .listResult [] none (some genericOracleFailureMsg))) := by
  refine ⟨rfl, rfl, rfl, rfl, ?_, fun i2 store user nid => rfl⟩
  show (fallbackAnalysis input e).errMsg ≠ some genericOracleFailureMsg
  by_cases hb : (fallbackTitle input == "") = true
  · simp only [fallbackAnalysis, hb, if_true, errorAnalysis]
    decide
  · simp [fallbackAnalysis, hb]

/-- C5 as stated is false on utterances the cleanup strips to nothing: for
the non-JSON oracle body and the utterance "todo", the claim demands the
heuristic-fallback analysis (action `create`, a draft with the stripped,
capitalized title), but the code returns an error analysis with no drafts
(`llm_processor.py:291-307`). -/
theorem claim_c5_counterexample :
    (analyzeInput (.invalidJson "not json") "todo" 0).action = some (some "error") ∧
    (analyzeInput (.invalidJson "not json") "todo" 0).todos = none := by
  decide

/-- C5 amended: when the oracle body is not valid JSON, `analyze_input`
never raises; whenever the stripped title is non-empty it returns the
heuristic-fallback analysis — action `delete` if the lowered utterance
contains delete/remove/cancel, else `mark_complete` if it contains
done/complete/finished, else `create`, with a single draft whose title is
the utterance stripped of the fixed action/filler word list and capitalized
— and when the stripped title is empty it returns an error analysis
instead. -/
theorem claim_c5_fallback_on_bad_json (input e : String) (now : Nat)
    (h : fallbackTitle input ≠ "") :
    (analyzeInput (.invalidJson e) input now).action = some (some (fallbackAction input)) ∧
    (analyzeInput (.invalidJson e) input now).todos =
      some [⟨some (some (fallbackTitle input)), some none, some none, some (some 1), some none⟩] ∧
    (analyzeInput (.invalidJson e) input now).errMsg = none := by
  have hb : (fallbackTitle input == "") = false := by
    simpa using h
  simp [analyzeInput, fallbackAnalysis, hb]

/-- Witness for C5 at "need to buy milk": the cleanup leaves "Buy milk", an
action-keyword-free utterance, so the fallback is a create analysis. -/
theorem claim_c5_fallback_witness :
    fallbackTitle "need to buy milk" ≠ "" ∧
    (analyzeInput (.invalidJson "oops") "need to buy milk" 0).action = some (some "create") ∧
    (analyzeInput (.invalidJson "oops") "need to buy milk" 0).todos =
      some [⟨some (some "Buy milk"), some none, some none, some (some 1), some none⟩] := by
  have h : fallbackTitle "need to buy milk" ≠ "" := by decide
  obtain ⟨h1, h2, h3⟩ := claim_c5_fallback_on_bad_json "need to buy milk" "oops" 0 h
  refine ⟨h, ?_, ?_⟩
  · rw [h1]; decide
  · rw [h2]; decide

/-- Modelled from the specification wording of the Task Matcher contract
(spec §4.2): first the owner's first task whose title contains the
reference case-insensitively; failing that, the owner's first task whose
lowercased title contains any lowercase token of the reference; else
not-found. -/
def specFind (store : List Todo) (owner : Nat) (ref : String) : Option Todo :=
  let mine := store.filter (fun t => t.userId == owner)
  match mine.find? (fun t => listHasSub (pyLower t.title.data) (pyLower ref.data)) with
  | some t => some t
  | none =>
    mine.find? (fun t => (splitWs (pyLower ref.data)).any (fun w => listHasSub (pyLower t.title.data) w))

/-- The grocery task of the claim's example, owned by user 7. -/
def groceryTask : Todo := ⟨1, "Buy Groceries From Walmart", none, none, false, some 1, none, 7⟩

/-- C8: `find_matching_todo` implements exactly the claimed two-stage
contract (case-insensitive substring pass, then any-token pass, else
not-found), and on the claim's examples: "groceries" finds "Buy Groceries
From Walmart", "nonexistent" finds nothing. -/
theorem claim_c8_matcher_two_stage :
    (∀ (store : List Todo) (ref : String) (uid : Nat),
      findMatchingTodo store ref uid = specFind store uid ref) ∧
    findMatchingTodo [groceryTask] "groceries" 7 = some groceryTask ∧
    findMatchingTodo [groceryTask] "nonexistent" 7 = none := by
  refine ⟨fun store ref uid => ?_, by decide, by decide⟩
  unfold findMatchingTodo specFind titleMatch tokenMatch
  rfl

/-- Every dictionary built by the comma-split loop reuses the FIRST parsed
draft's title (normalized), priority and category, whatever the item text;
and the loop succeeds on every item once that first draft carries a
non-null title. -/
theorem mapBuild_fields (d0 : DraftJson) (now : Nat) (t0 : String)
    (ht : d0.title = some (some t0)) :
    ∀ items : List (List Char), ∃ ts, mapBuild d0 now items = .ok ts ∧
      ts.length = items.length ∧
      ∀ d ∈ ts, d.title = some (some (String.mk (normTitle t0.data))) ∧
        d.priority = some (match d0.priority with | none => some 1 | some v => v) ∧
        d.category = some d0.category.join := by
  intro items
  induction items with
  | nil => exact ⟨[], rfl, rfl, by simp⟩
  | cons i is ih =>
    obtain ⟨ts, hmb, hlen, hall⟩ := ih
    have hbi : ∃ d, buildTodoItem d0 now i = .ok d ∧
        d.title = some (some (String.mk (normTitle t0.data))) ∧
        d.priority = some (match d0.priority with | none => some 1 | some v => v) ∧
        d.category = some d0.category.join := by
      simp only [buildTodoItem, ht]
      cases hdur : extractHours (pyLower i) with
      | none => exact ⟨_, rfl, rfl, rfl, rfl⟩
      | some h => exact ⟨_, rfl, rfl, rfl, rfl⟩
    obtain ⟨d, hbid, hdt, hdp, hdc⟩ := hbi
    refine ⟨d :: ts, ?_, by simp [hlen], ?_⟩
    · simp only [mapBuild, hbid, hmb]; rfl
    · intro x hx
      rcases List.mem_cons.mp hx with h | h
      · subst h; exact ⟨hdt, hdp, hdc⟩
      · exact hall x h

/-- The first parsed draft of the C6 scenario: title "buy milk", null
description and due date, priority 2, category "errands". -/
def draftC6 : DraftJson :=
  ⟨some (some "buy milk"), some none, some none, some (some 2), some (some "errands")⟩

/-- A parsed create analysis whose `todos` array holds exactly `draftC6`. -/
def parsedC6 : AnalysisDict := { action := some (some "create"), todos := some [draftC6] }

/-- C6 as stated is false: it says each split item reuses the first draft's
description and due date.  For the utterance "buy milk, finish report in 2
hours" the second item matches the duration regex, so its due date becomes
now + 2 hours (8200 = 1000 + 7200) and its description is re-annotated —
neither is the first draft's value (due date null, description null). -/
theorem claim_c6_counterexample :
    ((analyzeInput (.parsedJson parsedC6) "buy milk, finish report in 2 hours" 1000).todos.getD []).map
        (fun d => d.dueDate) = [some none, some (some 8200)] ∧
    ((analyzeInput (.parsedJson parsedC6) "buy milk, finish report in 2 hours" 1000).todos.getD []).map
        (fun d => d.description) = [some none, some (some "Buy milk (Due in 2 hours)")] ∧
    (some (some 8200) : Option (Option Nat)) ≠ some none := by
  refine ⟨by decide, by decide, by decide⟩

/-- C6 amended: a comma-separated create utterance is split into one draft
per comma item, and every resulting draft reuses the first extracted
draft's fields INCLUDING the title (normalized; the raw item text is used
as a title only when the first draft has no `"title"` key): priority and
category are reused unconditionally, while description and due date are
reused except for items matching the duration regex, which overrides them
(the duration property).  This theorem proves the count and the
unconditional per-item reuse of title, priority and category. -/
theorem claim_c6_comma_split_reuses_first_draft (p0 : AnalysisDict) (userInput : String)
    (now : Nat) (d0 : DraftJson) (rest : List DraftJson) (t0 : String)
    (hact : p0.action = some (some "create"))
    (htodos : p0.todos = some (d0 :: rest))
    (ht : d0.title = some (some t0))
    (hcomma : userInput.data.any (fun c => c == ',') = true) :
    ∃ ts, (analyzeInput (.parsedJson p0) userInput now).todos = some ts ∧
      ts.length = (splitOnComma userInput.data).length ∧
      ∀ d ∈ ts, d.title = some (some (String.mk (normTitle t0.data))) ∧
        d.priority = some (match d0.priority with | none => some 1 | some v => v) ∧
        d.category = some d0.category.join := by
  obtain ⟨ts, hmb, hlen, hall⟩ :=
    mapBuild_fields d0 now t0 ht ((splitOnComma userInput.data).map pyStrip)
  refine ⟨ts, ?_, by simpa using hlen, hall⟩
  simp [analyzeInput, htodos, hact, hcomma, hmb]

/-- Witness for C6 at the concrete scenario: two comma items, both drafts
titled from the first draft, with its priority and category. -/
theorem claim_c6_comma_split_witness :
    parsedC6.action = some (some "create") ∧
    parsedC6.todos = some [draftC6] ∧
    draftC6.title = some (some "buy milk") ∧
    ("buy milk, buy eggs".data.any (fun c => c == ',')) = true ∧
    ∃ ts, (analyzeInput (.parsedJson parsedC6) "buy milk, buy eggs" 0).todos = some ts ∧
      ts.length = (splitOnComma "buy milk, buy eggs".data).length ∧
      ∀ d ∈ ts, d.title = some (some (String.mk (normTitle "buy milk".data))) ∧
        d.priority = some (match draftC6.priority with | none => some 1 | some v => v) ∧
        d.category = some draftC6.category.join := by
  refine ⟨rfl, rfl, rfl, by decide, ?_⟩
  exact claim_c6_comma_split_reuses_first_draft parsedC6 "buy milk, buy eggs" 0 draftC6 []
    "buy milk" rfl rfl rfl (by decide)

/-- C7: for every create item whose raw text matches the duration regex
`(\d+)\s*(hr|hour|hrs|hours)` with hours `h` (a natural number), the
resulting draft's due timestamp is exactly `now + h` hours, its description
is annotated with the duration, and — since this holds for EVERY first
draft `d0`, in particular one carrying an oracle-provided due date — the
computed due date overrides any oracle-provided one. -/
theorem claim_c7_duration_override (d0 : DraftJson) (now : Nat) (item : List Char)
    (t0 : String) (h : Nat)
    (ht : d0.title = some (some t0))
    (hm : extractHours (pyLower item) = some h) :
    buildTodoItem d0 now item =
      .ok { title := some (some (String.mk (normTitle t0.data)))
            description := some (some (String.mk (pyCapitalize (normTitle t0.data))
              ++ " (Due in " ++ toString h ++ " hours)"))
            dueDate := some (some (now + h * 3600))
            priority := some (match d0.priority with | none => some 1 | some v => v)
            category := some d0.category.join } := by
  simp [buildTodoItem, ht, hm]

/-- Witness for C7: "meeting in 3 hrs" at time 100 with an oracle draft
whose due date is 999 — the result is due at 100 + 3·3600 = 10900,
overriding the oracle value. -/
theorem claim_c7_duration_witness :
    extractHours (pyLower "meeting in 3 hrs".data) = some 3 ∧
    buildTodoItem ⟨some (some "meeting"), some none, some (some 999), some (some 2), some none⟩
        100 "meeting in 3 hrs".data =
      .ok ⟨some (some "Meeting"), some (some "Meeting (Due in 3 hours)"), some (some 10900),
           some (some 2), some none⟩ := by
  refine ⟨by decide, ?_⟩
  rw [claim_c7_duration_override
    ⟨some (some "meeting"), some none, some (some 999), some (some 2), some none⟩
    100 "meeting in 3 hrs".data "meeting" 3 rfl (by decide)]
  rfl

/-- When exactly one task of the owner satisfies either matcher stage, the
matcher returns precisely that task (whether it matches by substring or
only by token). -/
theorem findMatchingTodo_of_unique (store : List Todo) (ref : String) (uid : Nat) (t : Todo)
    (h : store.filter (fun u => anyMatch u ref && u.userId == uid) = [t]) :
    findMatchingTodo store ref uid = some t := by
  have hsplit : (store.filter (fun u => u.userId == uid)).filter (fun u => anyMatch u ref) = [t] := by
    rw [List.filter_filter]
    exact h
  have hmemt : t ∈ store.filter (fun u => u.userId == uid) ∧ anyMatch t ref = true := by
    have : t ∈ (store.filter (fun u => u.userId == uid)).filter (fun u => anyMatch u ref) := by
      rw [hsplit]; exact List.mem_singleton_self t
    exact List.mem_filter.mp this
  cases hfind1 : (store.filter (fun u => u.userId == uid)).find? (fun u => titleMatch u ref) with
  | some u =>
    have hu1 : titleMatch u ref = true := by
      have := List.find?_some hfind1
      simpa using this
    have hu2 : u ∈ store.filter (fun x => x.userId == uid) := List.mem_of_find?_eq_some hfind1
    have hu3 : u ∈ (store.filter (fun x => x.userId == uid)).filter (fun x => anyMatch x ref) :=
      List.mem_filter.mpr ⟨hu2, by simp [anyMatch, hu1]⟩
    rw [hsplit] at hu3
    have : u = t := by simpa using hu3
    subst this
    simp [findMatchingTodo, hfind1]
  | none =>
    have hno1 : ∀ x ∈ store.filter (fun u => u.userId == uid), ¬ titleMatch x ref = true := by
      simpa using List.find?_eq_none.mp hfind1
    have htok : tokenMatch t ref = true := by
      have := hmemt.2
      unfold anyMatch at this
      rcases Bool.or_eq_true_iff.mp this with h1 | h1
      · exact absurd h1 (hno1 t hmemt.1)
      · exact h1
    cases hfind2 : (store.filter (fun u => u.userId == uid)).find? (fun u => tokenMatch u ref) with
    | none =>
      exact absurd htok (List.find?_eq_none.mp hfind2 t hmemt.1)
    | some u =>
      have hu1 : tokenMatch u ref = true := by
        have := List.find?_some hfind2
        simpa using this
      have hu2 : u ∈ store.filter (fun x => x.userId == uid) := List.mem_of_find?_eq_some hfind2
      have hu3 : u ∈ (store.filter (fun x => x.userId == uid)).filter (fun x => anyMatch x ref) :=
        List.mem_filter.mpr ⟨hu2, by simp [anyMatch, hu1]⟩
      rw [hsplit] at hu3
      have : u = t := by simpa using hu3
      subst this
      simp [findMatchingTodo, hfind1, hfind2]

/-- C9: a `mark_complete` analysis whose resolved title matches exactly one
stored task of the owner sets that task's completed flag to true and leaves
every other task — and every other field of the matched task — unchanged:
the new store is the old one with only the matched task's `completed`
replaced. -/
theorem claim_c9_mark_complete_frame (analysis : AnalysisDict) (userInput : String)
    (store : List Todo) (user : User) (nid : Nat) (d : DraftJson) (rest : List DraftJson)
    (refT : String) (t : Todo)
    (hact : analysis.action = some (some "mark_complete"))
    (htodos : analysis.todos = some (d :: rest))
    (htitle : d.title = some (some refT))
    (huniq : store.filter (fun u => anyMatch u refT && u.userId == user.id) = [t]) :
    (processInput analysis userInput store user nid).1 =
      store.map (fun u => if u.id == t.id then { u with completed := true } else u) := by
  have hfind := findMatchingTodo_of_unique store refT user.id t huniq
  simp [processInput, markBranch, resolveRefTitle, hact, htodos, htitle, hfind]

/-- The store of the C9 scenario: owner 3 holds "Buy Milk" and "Walk Dog",
both incomplete. -/
def milkStore : List Todo :=
  [⟨1, "Buy Milk", none, none, false, some 1, none, 3⟩,
   ⟨2, "Walk Dog", none, none, false, some 2, none, 3⟩]

/-- A `mark_complete` analysis whose draft is titled "buy milk". -/
def markMilkAnalysis : AnalysisDict :=
  { action := some (some "mark_complete")
    todos := some [⟨some (some "buy milk"), some none, some none, some (some 1), some none⟩] }

/-- Witness for C9: "buy milk" uniquely matches the first task of owner 3;
marking completes it and leaves "Walk Dog" (and all other fields)
untouched. -/
theorem claim_c9_mark_complete_witness :
    milkStore.filter (fun u => anyMatch u "buy milk" && u.userId == (3 : Nat)) =
      [⟨1, "Buy Milk", none, none, false, some 1, none, 3⟩] ∧
    (processInput markMilkAnalysis "mark buy milk as done" milkStore ⟨3, false⟩ 0).1 =
      [⟨1, "Buy Milk", none, none, true, some 1, none, 3⟩,
       ⟨2, "Walk Dog", none, none, false, some 2, none, 3⟩] := by
  refine ⟨by decide, ?_⟩
  rw [claim_c9_mark_complete_frame markMilkAnalysis "mark buy milk as done" milkStore ⟨3, false⟩ 0
    ⟨some (some "buy milk"), some none, some none, some (some 1), some none⟩ []
    "buy milk" ⟨1, "Buy Milk", none, none, false, some 1, none, 3⟩ rfl rfl rfl (by decide)]
  decide

/-- Rows built by the create loop: one per dictionary, each carrying only
the five constructor fields plus the optional due date — in particular a
null `category` and `completed = false` — with title, description, due date
and priority drawn from its own dictionary. -/
theorem buildAll_fields (uid : Nat) : ∀ (ds : List DraftJson) (nid : Nat),
    (∀ d ∈ ds, ∃ s, d.title = some (some s)) →
    ∃ ts, buildAll uid nid ds = .ok ts ∧ ts.length = ds.length ∧
      ∀ t ∈ ts, t.category = none ∧ t.completed = false ∧ t.userId = uid ∧
        ∃ d ∈ ds, d.title = some (some t.title) ∧ t.description = d.description.join ∧
          t.dueDate = d.dueDate.join ∧
          t.priority = (match d.priority with | none => some 1 | some v => v) := by
  intro ds
  induction ds with
  | nil => exact fun nid _ => ⟨[], rfl, rfl, by simp⟩
  | cons d ds ih =>
    intro nid hts
    obtain ⟨s, hs⟩ := hts d (List.mem_cons_self d ds)
    obtain ⟨ts, hba, hlen, hall⟩ := ih (nid + 1) (fun x hx => hts x (List.mem_cons_of_mem d hx))
    refine ⟨{ id := nid, title := s, description := d.description.join,
              dueDate := d.dueDate.join, completed := false,
              priority := (match d.priority with | none => some 1 | some v => v),
              category := none, userId := uid } :: ts, ?_, by simp [hlen], ?_⟩
    · simp only [buildAll, mkTodoFromDict, hs, hba]; rfl
    · intro t ht
      rcases List.mem_cons.mp ht with h | h
      · subst h
        exact ⟨rfl, rfl, rfl, d, List.mem_cons_self d ds, by simpa using hs, rfl, rfl, rfl⟩
      · obtain ⟨h1, h2, h3, d2, hd2, hrest⟩ := hall t h
        exact ⟨h1, h2, h3, d2, List.mem_cons_of_mem d hd2, hrest⟩

/-- C10: every task a create analysis inserts has a null category — even
when its draft carries a non-null extracted category — and the insert
writes only title, description, owner, priority, `completed = false` and
the optional due date: the store grows by exactly one task per draft, and
every task of the new store is either an old one or one whose fields are
exactly those drawn from some draft, with `category = none`
unconditionally. -/
theorem claim_c10_create_drops_category (analysis : AnalysisDict) (userInput : String)
    (store : List Todo) (user : User) (nid : Nat) (ds : List DraftJson)
    (hact : analysis.action = some (some "create"))
    (htodos : analysis.todos = some ds)
    (hne : ds ≠ [])
    (htitles : ∀ d ∈ ds, ∃ s, d.title = some (some s)) :
    (processInput analysis userInput store user nid).1.length = store.length + ds.length ∧
    ∀ t ∈ (processInput analysis userInput store user nid).1,
      t ∈ store ∨ (t.category = none ∧ t.completed = false ∧ t.userId = user.id ∧
        ∃ d ∈ ds, d.title = some (some t.title) ∧ t.description = d.description.join ∧
          t.dueDate = d.dueDate.join ∧
          t.priority = (match d.priority with | none => some 1 | some v => v)) := by
  obtain ⟨ts, hba, hlen, hall⟩ := buildAll_fields user.id ds nid htitles
  have hres : (processInput analysis userInput store user nid).1 = store ++ ts := by
    simp [processInput, createBranch, hact, htodos, hne, hba]
  rw [hres]
  constructor
  · simp [hlen]
  · intro t ht
    rcases List.mem_append.mp ht with h | h
    · exact Or.inl h
    · exact Or.inr (hall t h)

/-- A create draft carrying a non-null extracted category. -/
def eggsDraft : DraftJson :=
  ⟨some (some "Buy Eggs"), some (some "from store"), some (some 777), some (some 2),
   some (some "shopping")⟩

/-- A create analysis holding exactly `eggsDraft`. -/
def eggsAnalysis : AnalysisDict := { action := some (some "create"), todos := some [eggsDraft] }

/-- Witness for C10: the draft's category "shopping" is dropped — the
inserted row has `category = none` while title, description, due date and
priority come from the draft. -/
theorem claim_c10_create_drops_category_witness :
    eggsAnalysis.action = some (some "create") ∧
    eggsAnalysis.todos = some [eggsDraft] ∧
    ([eggsDraft] : List DraftJson) ≠ [] ∧
    eggsDraft.category = some (some "shopping") ∧
    ((processInput eggsAnalysis "buy eggs" [] ⟨9, false⟩ 42).1.length = 0 + [eggsDraft].length ∧
      ∀ t ∈ (processInput eggsAnalysis "buy eggs" [] ⟨9, false⟩ 42).1,
        t ∈ ([] : List Todo) ∨ (t.category = none ∧ t.completed = false ∧ t.userId = 9 ∧
          ∃ d ∈ [eggsDraft], d.title = some (some t.title) ∧ t.description = d.description.join ∧
            t.dueDate = d.dueDate.join ∧
            t.priority = (match d.priority with | none => some 1 | some v => v))) := by
  refine ⟨rfl, rfl, by decide, rfl, ?_⟩
  exact claim_c10_create_drops_category eggsAnalysis "buy eggs" [] ⟨9, false⟩ 42 [eggsDraft]
    rfl rfl (by decide) (fun d hd => ⟨"Buy Eggs", by simpa using (List.mem_singleton.mp hd) ▸ rfl⟩)
